import Mathlib

/-!
Verification of the TAMOC `seawater` and `dbm_utilities` modules.

This file gives a shallow embedding of the functions of
`tamoc/seawater.py` and `tamoc/dbm_utilities.py` that the verified claims
are about, and proves the claims against that embedding.

Modelling conventions:
* Python floats are modelled as real numbers (`ℝ`) where transcendental
  functions occur (`seawater.sigma`), and as rationals (`ℚ`) elsewhere, so
  that definitions stay executable and witnesses can be checked by `decide`.
* NumPy arrays are modelled as `List ℚ`; square matrices (the binary
  interaction matrix `delta`) as total functions `ℕ → ℕ → ℚ` whose values
  outside the index range are irrelevant junk.
* In-place mutation of a caller-owned array (the `kh_0` clamping in
  `format_dbm_data`) is modelled by explicit state passing: the embedded
  function returns the post-call contents of every caller-supplied array.
* The boundary equilibrium engine (`tamoc.dbm`, not part of this
  repository) is modelled as an abstract record of total operations; the
  `dbm.FluidMixture` constructor is modelled as a free constructor that
  simply records its arguments.
* A Python `NameError`/`TypeError` raised by the source is modelled by an
  `Except.error` value at the corresponding program point.
-/

/-! ## seawater.sigma (tamoc/seawater.py, lines 124-161) -/

namespace seawater

/-- Embedding of `seawater.sigma(T, S)`: surface tension of seawater.
The source first shifts `T` to deg C and rescales `S` to kg/kg, computes the
Sharqawy et al. (2010) eq. (27) pure-water value `sigma_w` (in terms of the
original Kelvin temperature `T_C + 273.15`), and multiplies by the eq. (28)
salinity correction only when `T_C < 40`. -/
noncomputable def sigma (T S : ℝ) : ℝ :=
  let T_C : ℝ := T - 273.15
  let S_g : ℝ := S / 1000
  let sigma_w : ℝ := 0.2358 * (1 - (T_C + 273.15) / 647.096) ^ (1.256 : ℝ) *
    (1 - 0.625 * (1 - (T_C + 273.15) / 647.096))
  if T_C < 40 then
    sigma_w * (1 + (0.000226 * T_C + 0.00946) * Real.log (1 + 0.0331 * S_g))
  else
    sigma_w

/-- The Sharqawy eq. (27) pure-water surface tension, written from the
spec's words as a function of the Kelvin temperature, for comparison with
the embedded `sigma`. -/
noncomputable def sigma_pure_water (T : ℝ) : ℝ :=
  0.2358 * (1 - T / 647.096) ^ (1.256 : ℝ) * (1 - 0.625 * (1 - T / 647.096))

/-- The eq. (28) salinity correction factor, written from the spec's
words. -/
noncomputable def salinity_correction (T S : ℝ) : ℝ :=
  1 + (0.000226 * (T - 273.15) + 0.00946) * Real.log (1 + 0.0331 * (S / 1000))

end seawater

/-! ## dbm_utilities.sequence_names (tamoc/dbm_utilities.py, lines 1112-1136) -/

namespace dbm_utilities

/-- The loop body of `sequence_names`, with the running counter `id_num`
made explicit.  Each entry equal to `name` is replaced by
`name ++ toString id_num` and the counter is incremented. -/
def sequence_names_from (sara_names : List String) (name : String)
    (id_num : ℕ) : List String :=
  match sara_names with
  | [] => []
  | x :: xs =>
    if x = name then (x ++ toString id_num) :: sequence_names_from xs name (id_num + 1)
    else x :: sequence_names_from xs name id_num

/-- Embedding of `sequence_names(sara_names, name)`.  The Python function
rewrites the caller's list in place; the returned list here models the
caller-visible contents of that list after the call. -/
def sequence_names (sara_names : List String) (name : String) : List String :=
  sequence_names_from sara_names name 1

end dbm_utilities

namespace dbm_utilities

lemma sequence_names_from_length (sara_names : List String) (name : String)
    (c : ℕ) : (sequence_names_from sara_names name c).length = sara_names.length := by
  induction sara_names generalizing c with
  | nil => rfl
  | cons x xs ih =>
    by_cases h : x = name <;> simp [sequence_names_from, h, ih]

lemma sequence_names_from_getD (sara_names : List String) (name : String)
    (c : ℕ) (i : ℕ) (hi : i < sara_names.length) :
    (sequence_names_from sara_names name c).getD i "" =
      if sara_names.getD i "" = name then
        name ++ toString (c + (sara_names.take i).count name)
      else sara_names.getD i "" := by
  induction sara_names generalizing c i with
  | nil => simp at hi
  | cons x xs ih =>
    have hstep : sequence_names_from (x :: xs) name c =
        if x = name then
          (x ++ toString c) :: sequence_names_from xs name (c + 1)
        else x :: sequence_names_from xs name c := rfl
    cases i with
    | zero =>
      by_cases h : x = name
      · rw [hstep, if_pos h, List.getD_cons_zero, List.getD_cons_zero, if_pos h, h]
        simp
      · rw [hstep, if_neg h, List.getD_cons_zero, List.getD_cons_zero, if_neg h]
    | succ i =>
      have hi' : i < xs.length := by simpa using hi
      have hcount : ((x :: xs).take (i + 1)).count name =
          (xs.take i).count name + (if x = name then 1 else 0) := by
        rw [List.take_succ_cons, List.count_cons]
        by_cases h : x = name <;> simp [h]
      by_cases h : x = name
      · rw [hstep, if_pos h, List.getD_cons_succ, List.getD_cons_succ,
          ih (c + 1) i hi']
        by_cases h2 : xs.getD i "" = name
        · rw [if_pos h2, if_pos h2, hcount, if_pos h, Nat.add_assoc,
            Nat.add_comm 1 ((xs.take i).count name)]
        · rw [if_neg h2, if_neg h2]
      · rw [hstep, if_neg h, List.getD_cons_succ, List.getD_cons_succ,
          ih c i hi']
        by_cases h2 : xs.getD i "" = name
        · rw [if_pos h2, if_pos h2, hcount, if_neg h, Nat.add_zero]
        · rw [if_neg h2, if_neg h2]

end dbm_utilities

/-- C8: `sequence_names(names, base)` leaves every entry different from
`base` unchanged, replaces the k-th entry equal to `base` (in list order,
counting from 1) by `base` followed by the digit string of k, preserves the
list length (the returned list models the caller's list after the in-place
mutation), and in particular maps `['Saturates','Aromatics','Saturates']`
with base `'Saturates'` to `['Saturates1','Aromatics','Saturates2']`. -/
theorem sequence_names_spec :
    (∀ (names : List String) (base : String) (i : ℕ), i < names.length →
      (dbm_utilities.sequence_names names base).length = names.length ∧
      (names.getD i "" = base →
        (dbm_utilities.sequence_names names base).getD i "" =
          base ++ toString (1 + (names.take i).count base)) ∧
      (names.getD i "" ≠ base →
        (dbm_utilities.sequence_names names base).getD i "" = names.getD i "")) ∧
    dbm_utilities.sequence_names ["Saturates", "Aromatics", "Saturates"]
      "Saturates" = ["Saturates1", "Aromatics", "Saturates2"] := by
  constructor
  · intro names base i hi
    refine ⟨dbm_utilities.sequence_names_from_length names base 1, ?_, ?_⟩
    · intro h
      rw [dbm_utilities.sequence_names,
        dbm_utilities.sequence_names_from_getD names base 1 i hi, if_pos h]
    · intro h
      rw [dbm_utilities.sequence_names,
        dbm_utilities.sequence_names_from_getD names base 1 i hi, if_neg h]
  · rfl

/-- Witness for C8: the general theorem applied at the concrete input from
the claim, entry index 2 (the second occurrence of `'Saturates'`). -/
theorem sequence_names_spec_witness :
    (dbm_utilities.sequence_names ["Saturates", "Aromatics", "Saturates"]
        "Saturates").getD 2 "" =
      "Saturates" ++ toString
        (1 + ((["Saturates", "Aromatics", "Saturates"] : List String).take 2).count
          "Saturates") :=
  ((sequence_names_spec.1 ["Saturates", "Aromatics", "Saturates"] "Saturates" 2
    (by decide)).2.1) (by decide)

/-- C7: for every temperature and salinity, `sigma(T, S)` equals the
Sharqawy pure-water surface tension multiplied by the salinity correction
factor `1 + (0.000226*T_C + 0.00946)*ln(1 + 0.0331*S/1000)` when
`T_C = T - 273.15` is below 40 deg C, and equals the uncorrected pure-water
value when `T_C` is at or above 40 deg C; `sigma` is a total function, so no
error is raised for hot temperatures. -/
theorem sigma_salinity_correction (T S : ℝ) :
    seawater.sigma T S =
      if T - 273.15 < 40 then
        seawater.sigma_pure_water T * seawater.salinity_correction T S
      else
        seawater.sigma_pure_water T := by
  have hT : T - 273.15 + 273.15 = T := by ring
  simp only [seawater.sigma, seawater.sigma_pure_water,
    seawater.salinity_correction, hT]

/-! ## dbm_utilities.pedersen (tamoc/dbm_utilities.py, lines 1413-1552) -/

namespace dbm_utilities

/-- A square matrix, indexed over `ℕ`; entries outside the index range of
the modelled NumPy array are irrelevant. -/
def Mat : Type := ℕ → ℕ → ℚ

/-- `delta[i0,:] = c`. -/
def setRow (d : Mat) (i0 : ℕ) (c : ℚ) : Mat :=
  fun i j => if i = i0 then c else d i j

/-- `delta[:,j0] = c`. -/
def setCol (d : Mat) (j0 : ℕ) (c : ℚ) : Mat :=
  fun i j => if j = j0 then c else d i j

/-- `delta[i0,j0] = c`. -/
def setEntry (d : Mat) (i0 j0 : ℕ) (c : ℚ) : Mat :=
  fun i j => if i = i0 ∧ j = j0 then c else d i j

/-- Lines 1506-1508: `delta[air_idx,:] = c; delta[:,air_idx] = c;
delta[air_idx,air_idx] = 0.`. -/
def airFix (d : Mat) (idx : ℕ) (c : ℚ) : Mat :=
  setEntry (setCol (setRow d idx c) idx c) idx idx 0

/-- Lines 1523-1524: `delta[air_idx,gas_idx] = v; delta[gas_idx,air_idx] = v`. -/
def setSym (d : Mat) (i0 j0 : ℕ) (c : ℚ) : Mat :=
  setEntry (setEntry d i0 j0 c) j0 i0 c

/-- Lines 1548-1549: `delta[i,:] = 0.; delta[:,i] = 0.`. -/
def zeroRC (d : Mat) (i0 : ℕ) : Mat :=
  setCol (setRow d i0 0) i0 0

/-- Lines 1465-1475: the initial Pedersen matrix — zero diagonal, and
`0.00145 * max(M[j]/M[i], M[i]/M[j])` off the diagonal. -/
def pedersen_base (M : List ℚ) : Mat :=
  fun i j =>
    if i = j then 0
    else 0.00145 * max (M.getD j 0 / M.getD i 0) (M.getD i 0 / M.getD j 0)

/-- Line 1481: `air = ['nitrogen', 'oxygen', 'carbon_dioxide']`. -/
def air : List String := ["nitrogen", "oxygen", "carbon_dioxide"]

/-- Line 1482: `gas = ['methane', 'ethane', 'propane', 'isobutane',
'n-butane']`. -/
def gas : List String := ["methane", "ethane", "propane", "isobutane", "n-butane"]

/-- Lines 1486-1490: the `delta_air_gas` table (air rows, natural-gas
columns). -/
def delta_air_gas : List (List ℚ) :=
  [[0.0311, 0.0515, 0.0852, 0.1033, 0.08],
   [0.0311, 0.0515, 0.0852, 0.1033, 0.08],
   [0.12, 0.12, 0.12, 0.12, 0.12]]

/-- Line 1493: `delta_air_hydro = np.array([0.08, 0.08, 0.01])`. -/
def delta_air_hydro : List ℚ := [0.08, 0.08, 0.01]

/-- Lines 1512-1524: the inner loop over the natural-gas compounds for one
atmospheric gas at composition index `ai`; `gs` pairs each natural-gas name
with its `delta_air_gas` entry for this atmospheric gas. -/
def gasCorrect (comp : List String) (ai : ℕ) (d : Mat)
    (gs : List (String × ℚ)) : Mat :=
  gs.foldl
    (fun d gc => if gc.1 ∈ comp then setSym d ai (comp.indexOf gc.1) gc.2 else d)
    d

/-- Lines 1496-1524: the outer loop over the atmospheric gases; `entries`
pairs each atmospheric-gas name with its `delta_air_hydro` constant and its
`delta_air_gas` row. -/
def airCorrect (comp : List String) (d : Mat)
    (entries : List (String × ℚ × List ℚ)) : Mat :=
  entries.foldl
    (fun d a =>
      if a.1 ∈ comp then
        gasCorrect comp (comp.indexOf a.1)
          (airFix d (comp.indexOf a.1) a.2.1) (gas.zip a.2.2)
      else d)
    d

/-- The rows of `air` zipped with `delta_air_hydro` and `delta_air_gas`,
in loop order (`for i in range(len(air))`). -/
def airEntries : List (String × ℚ × List ℚ) :=
  [("nitrogen", 0.08, [0.0311, 0.0515, 0.0852, 0.1033, 0.08]),
   ("oxygen", 0.08, [0.0311, 0.0515, 0.0852, 0.1033, 0.08]),
   ("carbon_dioxide", 0.01, [0.12, 0.12, 0.12, 0.12, 0.12])]

/-- Line 1527: `chems = ['Saturates', 'Aromatics', 'Resins', 'Asphaltenes']
+ air + gas`. -/
def chems : List String :=
  ["Saturates", "Aromatics", "Resins", "Asphaltenes"] ++ air ++ gas

/-- Line 1540: Python's substring test `chems[j] in composition[i]`. -/
def substrOf (needle hay : String) : Bool :=
  decide (needle.toList <:+: hay.toList)

/-- Lines 1532-1541: a component name is known when some entry of `chems`
occurs as a substring of it. -/
def knownChem (s : String) : Bool :=
  chems.any (fun c => substrOf c s)

/-- Lines 1532-1549: zero the row and column of every composition entry
whose name has no known base name. -/
def zeroUnknown (comp : List String) (d : Mat) : Mat :=
  (List.range comp.length).foldl
    (fun d i => if knownChem (comp.getD i "") then d else zeroRC d i) d

/-- Embedding of `pedersen(M, composition=[])` (lines 1413-1552): the
initial molecular-weight-ratio matrix, then — only when a composition list
is supplied — the atmospheric-gas row/column corrections, the air-versus-
natural-gas table overrides, and the zeroing of unrecognized component
names. -/
def pedersen (M : List ℚ) (composition : List String) : Mat :=
  if 0 < composition.length then
    zeroUnknown composition (airCorrect composition (pedersen_base M) airEntries)
  else
    pedersen_base M

end dbm_utilities

/-- C5: for every molecular-weight list `M` of length at least 2 with
positive entries, `pedersen(M)` called without a composition list gives a
matrix with zero diagonal whose `(i,j)` entry for `i ≠ j` equals
`0.00145 * max(M[i]/M[j], M[j]/M[i])`, for all indices `i, j < len(M)`. -/
theorem pedersen_default_entries (M : List ℚ) (h2 : 2 ≤ M.length)
    (hpos : ∀ x ∈ M, 0 < x) :
    ∀ i j : ℕ, i < M.length → j < M.length →
      (i = j → dbm_utilities.pedersen M [] i j = 0) ∧
      (i ≠ j → dbm_utilities.pedersen M [] i j =
        0.00145 * max (M.getD i 0 / M.getD j 0) (M.getD j 0 / M.getD i 0)) := by
  intro i j _ _
  have hped : dbm_utilities.pedersen M [] = dbm_utilities.pedersen_base M := rfl
  constructor
  · intro h
    rw [hped, dbm_utilities.pedersen_base, if_pos h]
  · intro h
    rw [hped, dbm_utilities.pedersen_base, if_neg h, max_comm]

/-- Witness for C5: the theorem applied to the molecular weights of
methane and ethane, `M = [0.016, 0.030]`, at indices 0 and 1. -/
theorem pedersen_default_entries_witness :
    (0 : ℕ) ≠ 1 ∧ dbm_utilities.pedersen [0.016, 0.030] [] 0 1 =
      0.00145 * max ((0.016 : ℚ) / 0.030) ((0.030 : ℚ) / 0.016) :=
  ⟨by decide,
    (pedersen_default_entries [0.016, 0.030] (by decide)
      (by intro x hx; fin_cases hx <;> norm_num) 0 1 (by decide) (by decide)).2
      (by decide)⟩

/-! ## dbm_utilities.format_dbm_data (tamoc/dbm_utilities.py, lines 277-390) -/

namespace dbm_utilities

/-- Per-component chemical property record, as assembled into the `data`
dictionary (lines 353-369). -/
structure ChemRecord where
  M : ℚ
  Pc : ℚ
  Tc : ℚ
  omega : ℚ
  kh_0 : ℚ
  neg_dH_solR : ℚ
  nu_bar : ℚ
  K_salt : ℚ
  Vc : ℚ
  Tb : ℚ
  Vb : ℚ
  B : ℚ
  dE : ℚ
deriving DecidableEq, Repr

/-- A default record used only as the out-of-range fallback of `getD`. -/
def ChemRecord.dflt : ChemRecord :=
  ⟨0, 0, 0, 0, 0, 0, 0, 0, 0, 0, 0, 0, 0⟩

/-- The caller-supplied arrays of `format_dbm_data`, bundled so that the
embedded function can return their caller-visible contents after the call
(modelling the in-place `kh_0` clamping as explicit state passing). -/
structure DbmArrays where
  M : List ℚ
  Pc : List ℚ
  Tc : List ℚ
  omega : List ℚ
  kh_0 : List ℚ
  neg_dH_solR : List ℚ
  nu_bar : List ℚ
  K_salt : List ℚ
  Vc : Option (List ℚ)
  Tb : Option (List ℚ)
  Vb : Option (List ℚ)
  B : Option (List ℚ)
  dE : Option (List ℚ)
deriving DecidableEq, Repr

/-- Lines 344-347: `for i in range(nc): if kh_0[i] < 0.: kh_0[i] = 0.` —
clamp the first `nc` entries of the caller's array to be non-negative,
writing in place. -/
def clampKh : List ℚ → ℕ → List ℚ
  | [], _ => []
  | x :: xs, 0 => x :: xs
  | x :: xs, n + 1 => (if x < 0 then 0 else x) :: clampKh xs n

/-- Embedding of `format_dbm_data(composition, M, Pc, Tc, omega, kh_0,
neg_dH_solR, nu_bar, K_salt, Vc=None, Tb=None, Vb=None, B=None, dE=None)`.
Returns the `data` dictionary — modelled as the association list of
`(name, record)` pairs in loop order — and the post-call contents of the
caller-supplied arrays.  Lines 333-342 rebind the five optional local
names to fresh `-9999` arrays when they were not supplied (no caller
array is written); lines 344-347 clamp negative `kh_0` entries in place. -/
def format_dbm_data (composition : List String) (a : DbmArrays) :
    List (String × ChemRecord) × DbmArrays :=
  let nc := composition.length
  let Vc := a.Vc.getD (List.replicate nc (-9999))
  let Tb := a.Tb.getD (List.replicate nc (-9999))
  let Vb := a.Vb.getD (List.replicate nc (-9999))
  let B := a.B.getD (List.replicate nc (-9999))
  let dE := a.dE.getD (List.replicate nc (-9999))
  let kh := clampKh a.kh_0 nc
  let data := (List.range nc).map (fun i =>
    (composition.getD i "",
      { M := a.M.getD i 0
        Pc := a.Pc.getD i 0
        Tc := a.Tc.getD i 0
        omega := a.omega.getD i 0
        kh_0 := kh.getD i 0
        neg_dH_solR := a.neg_dH_solR.getD i 0
        nu_bar := a.nu_bar.getD i 0
        K_salt := a.K_salt.getD i 0
        Vc := Vc.getD i 0
        Tb := Tb.getD i 0
        Vb := Vb.getD i 0
        B := B.getD i 0
        dE := dE.getD i 0 : ChemRecord }))
  (data, { a with kh_0 := kh })

lemma clampKh_length (kh : List ℚ) (n : ℕ) : (clampKh kh n).length = kh.length := by
  induction kh generalizing n with
  | nil => rfl
  | cons x xs ih =>
    cases n with
    | zero => rfl
    | succ n => simp [clampKh, ih]

lemma clampKh_getD (kh : List ℚ) (n : ℕ) (i : ℕ) (hi : i < kh.length)
    (hn : i < n) :
    (clampKh kh n).getD i 0 = if kh.getD i 0 < 0 then 0 else kh.getD i 0 := by
  induction kh generalizing n i with
  | nil => simp at hi
  | cons x xs ih =>
    cases n with
    | zero => omega
    | succ n =>
      cases i with
      | zero => rfl
      | succ i =>
        have hi' : i < xs.length := by simpa using hi
        have hn' : i < n := by omega
        rw [show clampKh (x :: xs) (n + 1) =
          (if x < 0 then 0 else x) :: clampKh xs n from rfl,
          List.getD_cons_succ, List.getD_cons_succ, ih n i hi' hn']

end dbm_utilities

/-- C6: `format_dbm_data` stores, for each component `i`, a Henry's
constant of exactly 0 whenever the supplied `kh_0[i] < 0` and the supplied
value otherwise, and stores exactly `-9999` in each of the fields `Vc`,
`Tb`, `Vb`, `B`, `dE` whenever the corresponding optional array was not
supplied. -/
theorem format_dbm_data_clamp_and_sentinels (composition : List String)
    (a : dbm_utilities.DbmArrays) (i : ℕ) (hi : i < composition.length)
    (hkh : a.kh_0.length = composition.length) :
    let r := ((dbm_utilities.format_dbm_data composition a).1.getD i
      ("", dbm_utilities.ChemRecord.dflt)).2
    (a.kh_0.getD i 0 < 0 → r.kh_0 = 0) ∧
    (¬ a.kh_0.getD i 0 < 0 → r.kh_0 = a.kh_0.getD i 0) ∧
    (a.Vc = none → r.Vc = -9999) ∧
    (a.Tb = none → r.Tb = -9999) ∧
    (a.Vb = none → r.Vb = -9999) ∧
    (a.B = none → r.B = -9999) ∧
    (a.dE = none → r.dE = -9999) := by
  intro r
  have hr : r = { M := a.M.getD i 0
                  Pc := a.Pc.getD i 0
                  Tc := a.Tc.getD i 0
                  omega := a.omega.getD i 0
                  kh_0 := (dbm_utilities.clampKh a.kh_0 composition.length).getD i 0
                  neg_dH_solR := a.neg_dH_solR.getD i 0
                  nu_bar := a.nu_bar.getD i 0
                  K_salt := a.K_salt.getD i 0
                  Vc := (a.Vc.getD (List.replicate composition.length (-9999))).getD i 0
                  Tb := (a.Tb.getD (List.replicate composition.length (-9999))).getD i 0
                  Vb := (a.Vb.getD (List.replicate composition.length (-9999))).getD i 0
                  B := (a.B.getD (List.replicate composition.length (-9999))).getD i 0
                  dE := (a.dE.getD (List.replicate composition.length (-9999))).getD i 0 } := by
    show (((List.range composition.length).map _).getD i
      ("", dbm_utilities.ChemRecord.dflt)).2 = _
    rw [List.getD_eq_getElem _ _ (by simpa using hi), List.getElem_map,
      List.getElem_range]
  have hclamp : (dbm_utilities.clampKh a.kh_0 composition.length).getD i 0 =
      if a.kh_0.getD i 0 < 0 then 0 else a.kh_0.getD i 0 :=
    dbm_utilities.clampKh_getD a.kh_0 composition.length i (by omega) hi
  have hrepl : (List.replicate composition.length (-9999 : ℚ)).getD i 0 = -9999 := by
    rw [List.getD_eq_getElem _ _ (by simpa using hi), List.getElem_replicate]
  refine ⟨?_, ?_, ?_, ?_, ?_, ?_, ?_⟩
  · intro h; rw [hr]; simp only; rw [hclamp, if_pos h]
  · intro h; rw [hr]; simp only; rw [hclamp, if_neg h]
  · intro h; rw [hr]; simp only [h, Option.getD_none]; exact hrepl
  · intro h; rw [hr]; simp only [h, Option.getD_none]; exact hrepl
  · intro h; rw [hr]; simp only [h, Option.getD_none]; exact hrepl
  · intro h; rw [hr]; simp only [h, Option.getD_none]; exact hrepl
  · intro h; rw [hr]; simp only [h, Option.getD_none]; exact hrepl

/-- Witness for C6: a two-component mixture with a negative Henry's
constant in slot 0 and no optional arrays supplied. -/
theorem format_dbm_data_clamp_and_sentinels_witness :
    ((-1 : ℚ) < 0 →
      ((dbm_utilities.format_dbm_data ["benzene", "toluene"]
        ⟨[0.078, 0.092], [4.9e6, 4.1e6], [562, 592], [0.21, 0.26], [-1, 0.4],
          [4000, 4100], [8e-5, 9e-5], [1e-4, 1.1e-4],
          none, none, none, none, none⟩).1.getD 0
        ("", dbm_utilities.ChemRecord.dflt)).2.kh_0 = 0) ∧
    ((none : Option (List ℚ)) = none →
      ((dbm_utilities.format_dbm_data ["benzene", "toluene"]
        ⟨[0.078, 0.092], [4.9e6, 4.1e6], [562, 592], [0.21, 0.26], [-1, 0.4],
          [4000, 4100], [8e-5, 9e-5], [1e-4, 1.1e-4],
          none, none, none, none, none⟩).1.getD 0
        ("", dbm_utilities.ChemRecord.dflt)).2.Vc = -9999) := by
  have h := format_dbm_data_clamp_and_sentinels ["benzene", "toluene"]
    ⟨[0.078, 0.092], [4.9e6, 4.1e6], [562, 592], [0.21, 0.26], [-1, 0.4],
      [4000, 4100], [8e-5, 9e-5], [1e-4, 1.1e-4],
      none, none, none, none, none⟩ 0 (by decide) (by decide)
  exact ⟨fun _ => h.1 (by decide), fun _ => h.2.2.1 rfl⟩

/-- C10: the Henry's-constant clamping of `format_dbm_data` is an in-place
side effect on the caller's `kh_0` array — after the call, every slot of
the caller's array that held a negative value holds exactly 0 and every
other slot is unchanged — while all other caller-supplied arrays (`M`,
`Pc`, `Tc`, `omega`, `neg_dH_solR`, `nu_bar`, `K_salt`, and any supplied
optional arrays) are left unchanged. -/
theorem format_dbm_data_mutates_only_kh (composition : List String)
    (a : dbm_utilities.DbmArrays) (hkh : a.kh_0.length = composition.length) :
    let post := (dbm_utilities.format_dbm_data composition a).2
    post.kh_0.length = a.kh_0.length ∧
    (∀ i : ℕ, i < a.kh_0.length →
      (a.kh_0.getD i 0 < 0 → post.kh_0.getD i 0 = 0) ∧
      (¬ a.kh_0.getD i 0 < 0 → post.kh_0.getD i 0 = a.kh_0.getD i 0)) ∧
    post.M = a.M ∧ post.Pc = a.Pc ∧ post.Tc = a.Tc ∧ post.omega = a.omega ∧
    post.neg_dH_solR = a.neg_dH_solR ∧ post.nu_bar = a.nu_bar ∧
    post.K_salt = a.K_salt ∧ post.Vc = a.Vc ∧ post.Tb = a.Tb ∧
    post.Vb = a.Vb ∧ post.B = a.B ∧ post.dE = a.dE := by
  intro post
  have hpost : post = { a with kh_0 := dbm_utilities.clampKh a.kh_0 composition.length } := rfl
  refine ⟨?_, ?_, ?_, ?_, ?_, ?_, ?_, ?_, ?_, ?_, ?_, ?_, ?_, ?_⟩
  · rw [hpost]; exact dbm_utilities.clampKh_length a.kh_0 composition.length
  · intro i hi
    have hclamp : (dbm_utilities.clampKh a.kh_0 composition.length).getD i 0 =
        if a.kh_0.getD i 0 < 0 then 0 else a.kh_0.getD i 0 :=
      dbm_utilities.clampKh_getD a.kh_0 composition.length i hi (by omega)
    constructor
    · intro h; rw [hpost]; simp only; rw [hclamp, if_pos h]
    · intro h; rw [hpost]; simp only; rw [hclamp, if_neg h]
  all_goals rw [hpost]

/-- Witness for C10: the clamping theorem applied to the same concrete
two-component input, checking the caller-visible `kh_0` slot 0. -/
theorem format_dbm_data_mutates_only_kh_witness :
    ((dbm_utilities.format_dbm_data ["benzene", "toluene"]
      ⟨[0.078, 0.092], [4.9e6, 4.1e6], [562, 592], [0.21, 0.26], [-1, 0.4],
        [4000, 4100], [8e-5, 9e-5], [1e-4, 1.1e-4],
        none, none, none, none, none⟩).2.kh_0.getD 0 0 = 0) :=
  ((format_dbm_data_mutates_only_kh ["benzene", "toluene"]
    ⟨[0.078, 0.092], [4.9e6, 4.1e6], [562, 592], [0.21, 0.26], [-1, 0.4],
      [4000, 4100], [8e-5, 9e-5], [1e-4, 1.1e-4],
      none, none, none, none, none⟩ (by decide)).2.1 0 (by decide)).1 (by decide)

/-! ## get_oil, set_mass_fluxes, print_petroleum_props
(tamoc/dbm_utilities.py, lines 32-200, 592-647, 1813-1931)

The loaders (`load_tamoc_oil`, `load_simap_oil`, `load_gnome_oil`,
`load_adios_oil`) and the `dbm_mixture` reuse path all end the dispatch of
`get_oil` by binding `composition, mass_frac, user_data, delta,
delta_groups`; they are modelled jointly as an abstract `LoadResult`.  A
dict matching none of the three recognized key sets leaves those names
unbound (`loadResult = none`).  The boundary engine `tamoc.dbm` is
modelled by the abstract `Engine` record, and `dbm.FluidMixture` by a free
constructor recording its arguments. -/

namespace dbm_utilities

/-- A Python runtime error raised by the embedded code. -/
inductive PyErr where
  | nameError (name : String)
  | typeError (msg : String)
deriving DecidableEq, Repr

/-- The five values bound by every recognized branch of `get_oil`'s
source dispatch (lines 78-158). -/
structure LoadResult where
  composition : List String
  mass_frac : List ℚ
  user_data : List (String × ChemRecord)
  delta : Option Mat
  delta_groups : Option (List (List ℚ))

/-- The arguments of the `dbm.FluidMixture` constructor (boundary
contract): the constructed mixture is modelled as this argument record. -/
structure FluidMixtureArgs where
  composition : List String
  delta : Option Mat
  delta_groups : Option (List (List ℚ))
  user_data : List (String × ChemRecord)

/-- The boundary `tamoc.dbm` engine operations used by the embedded
pipeline, as total abstract functions of the mixture-construction
arguments: `oil.M` (harvested molecular weights), `oil.equilibrium`
(returning the gas row and liquid row of the phase mass matrix `m`), and
`oil.density` (returning the gas-row and liquid-row densities). -/
structure Engine where
  M : List String → List (String × ChemRecord) → List ℚ
  equilibrium : List String → Option Mat → Option (List (List ℚ)) →
    List (String × ChemRecord) → List ℚ → ℚ → ℚ → List ℚ × List ℚ
  density : List String → Option Mat → Option (List (List ℚ)) →
    List (String × ChemRecord) → List ℚ → ℚ → ℚ → ℚ × ℚ

/-- The signature of `mix_gas_for_gor` as called on line 187: it returns
`(composition, mass_frac, delta, delta_groups)`.  For the claims below it
is kept abstract. -/
def MixGasFn : Type :=
  List String → List ℚ → List (String × ChemRecord) → Option Mat →
    Option (List (List ℚ)) → ℚ → List String × List ℚ × Option Mat ×
    Option (List (List ℚ))

/-- Lines 176-181: the fixed 15-column group-contribution rows appended
for the requested atmospheric gases — `nitrogen` sets column 12 to 1,
`carbon_dioxide` sets column 11 to 1, every other entry is 0. -/
def air_groups (ca : List String) : List (List ℚ) :=
  ca.map (fun name =>
    (List.range 15).map (fun j =>
      if name = "nitrogen" ∧ j = 12 then 1
      else if name = "carbon_dioxide" ∧ j = 11 then 1
      else 0))

/-- Embedding of `set_mass_fluxes(composition, mass_frac, user_data,
delta, delta_groups, q_oil, fp_type)` (lines 592-647): flash the mixture
at standard conditions, take the volumetric rate of the selected phase for
a unit total flow, and scale the mass fractions by
`(q_oil / 86400) / v_oil`. -/
def set_mass_fluxes (E : Engine) (composition : List String)
    (mass_frac : List ℚ) (user_data : List (String × ChemRecord))
    (delta : Option Mat) (delta_groups : Option (List (List ℚ)))
    (q_oil : ℚ) (fp_type : ℕ) : List ℚ :=
  let P0 : ℚ := 101325
  let T0 : ℚ := 273.15 + 15
  let m0 := E.equilibrium composition delta delta_groups user_data mass_frac T0 P0
  let row := if fp_type = 0 then m0.1 else m0.2
  let dens := E.density composition delta delta_groups user_data row T0 P0
  let p_oil := if fp_type = 0 then dens.1 else dens.2
  let v_oil := row.sum / p_oil / 0.158987
  let k_fac := (q_oil / 86400) / v_oil
  mass_frac.map (fun m => m * k_fac)

/-- Embedding of `get_oil(substance, q_oil, gor, ca=[], fp_type=1)`
(lines 32-200) after the source dispatch.

* `loadResult = none` models a dict `substance` with none of the keys
  `composition` / `simap_names` / `dbm_mixture`: the `else` branch (lines
  105-107) only prints an error message and falls through, so the local
  name `composition` is never bound and its first later use (line 163,
  187 or 192, whichever runs first) raises `NameError('composition')`.
* In the atmospheric-gas branch (lines 161-182), when group-contribution
  rows are in use, line 182 reads `delta_group` (singular) — a name that
  is never assigned anywhere in the function — so
  `np.vstack((delta_group, air_groups))` raises
  `NameError('delta_group')`.
* On line 187 the fourth value returned by `mix_gas_for_gor` is bound to
  the fresh name `delta_grous` (a typo), so `delta_groups` keeps its
  pre-call value in the rest of the function.  -/
def get_oil (E : Engine) (mixGas : MixGasFn) (loadResult : Option LoadResult)
    (q_oil gor : ℚ) (ca : List String) (fp_type : ℕ) :
    Except PyErr (FluidMixtureArgs × List ℚ) :=
  match loadResult with
  | none => Except.error (PyErr.nameError "composition")
  | some lr => do
    let step1 : List String × List ℚ × Option Mat × Option (List (List ℚ)) ←
      if 0 < ca.length then
        let composition := lr.composition ++ ca
        let mass_frac := lr.mass_frac ++
          List.replicate (composition.length - lr.mass_frac.length) 0
        match lr.delta_groups with
        | none =>
          let oilM := E.M composition lr.user_data
          Except.ok (composition, mass_frac,
            some (pedersen oilM composition), lr.delta_groups)
        | some _ =>
          let _unused := air_groups ca
          Except.error (PyErr.nameError "delta_group")
      else
        Except.ok (lr.composition, lr.mass_frac, lr.delta, lr.delta_groups)
    let (composition, mass_frac, delta, delta_groups) := step1
    let step2 : List String × List ℚ × Option Mat ←
      if gor > 0 then
        let r := mixGas composition mass_frac lr.user_data delta delta_groups gor
        Except.ok (r.1, r.2.1, r.2.2.1)
      else
        Except.ok (composition, mass_frac, delta)
    let (composition, mass_frac, delta) := step2
    let mass_flux := set_mass_fluxes E composition mass_frac lr.user_data
      delta delta_groups q_oil fp_type
    Except.ok (⟨composition, delta, delta_groups, lr.user_data⟩, mass_flux)

/-- Embedding of `print_petroleum_props(comp, mass_frac, data, delta,
delta_groups, T, S, P, q_oil=None)` (lines 1813-1931).  The body up to
line 1902 only computes and prints gas, oil and seawater properties
through the boundary engine (total operations; console output is not
modelled and does not affect the returned value).  With `q_oil=None` the
returned `mass_flux` is the raw `mass_frac` (line 1906).  With a supplied
`q_oil`, line 1908 calls `set_mass_fluxes(comp, mass_frac, data, delta,
q_oil)` with 5 positional arguments while `set_mass_fluxes` (line 592)
declares 7 required positional parameters, so Python raises a `TypeError`
before anything is returned. -/
def print_petroleum_props (E : Engine) (comp : List String)
    (mass_frac : List ℚ) (data : List (String × ChemRecord))
    (delta : Option Mat) (delta_groups : Option (List (List ℚ)))
    (T S P : ℚ) (q_oil : Option ℚ) : Except PyErr (List ℚ) :=
  match q_oil with
  | none => Except.ok mass_frac
  | some _ => Except.error (PyErr.typeError
      "set_mass_fluxes() missing 2 required positional arguments")

/-- A trivial concrete engine, used only to instantiate witnesses. -/
def engine0 : Engine :=
  ⟨fun _ _ => [], fun _ _ _ _ _ _ _ => ([], []), fun _ _ _ _ _ _ _ => (0, 0)⟩

/-- A trivial concrete `mix_gas_for_gor` stand-in, used only to
instantiate witnesses. -/
def mixGas0 : MixGasFn := fun c mf _ d g _ => (c, mf, d, g)

end dbm_utilities

/-- C1: for a dict `substance` containing none of the keys `composition`,
`simap_names` or `dbm_mixture`, and for all `q_oil`, `gor`, `ca` and
`fp_type`, the original `get_oil` does NOT fail fast with an explicit
"invalid oil description" error: it merely prints a message and proceeds,
and the run ends with `NameError('composition')` raised from the post-load
pipeline.  This refutes the claimed (required) behaviour and exhibits the
defect the spec flags. -/
theorem get_oil_unknown_dict_name_error (E : dbm_utilities.Engine)
    (mixGas : dbm_utilities.MixGasFn) (q_oil gor : ℚ) (ca : List String)
    (fp_type : ℕ) :
    dbm_utilities.get_oil E mixGas none q_oil gor ca fp_type =
      Except.error (dbm_utilities.PyErr.nameError "composition") := rfl

/-- C2: whenever the atmospheric-gas list is non-empty and
group-contribution rows are in use (`delta_groups` is not `None`),
`get_oil` raises `NameError('delta_group')` at the stacking step (line
182), so no group matrix at all flows to the returned mixture.  This
refutes the claimed append behaviour. -/
theorem get_oil_group_stack_name_error (E : dbm_utilities.Engine)
    (mixGas : dbm_utilities.MixGasFn) (lr : dbm_utilities.LoadResult)
    (G : List (List ℚ)) (q_oil gor : ℚ) (ca : List String) (fp_type : ℕ)
    (hg : lr.delta_groups = some G) (hca : 0 < ca.length) :
    dbm_utilities.get_oil E mixGas (some lr) q_oil gor ca fp_type =
      Except.error (dbm_utilities.PyErr.nameError "delta_group") := by
  simp only [dbm_utilities.get_oil, if_pos hca, hg]
  rfl

/-- Witness for C2: a concrete one-component load result carrying a
group-contribution matrix, with `ca = ['nitrogen']`. -/
theorem get_oil_group_stack_name_error_witness :
    dbm_utilities.get_oil dbm_utilities.engine0 dbm_utilities.mixGas0
      (some ⟨["Saturates1"], [1], [], none, some [[0]]⟩) 1 0 ["nitrogen"] 1 =
      Except.error (dbm_utilities.PyErr.nameError "delta_group") :=
  get_oil_group_stack_name_error dbm_utilities.engine0 dbm_utilities.mixGas0
    ⟨["Saturates1"], [1], [], none, some [[0]]⟩ [[0]] 1 0 ["nitrogen"] 1
    rfl (by decide)

/-- C3: with `gor = 0` and `ca = []`, `get_oil` performs no gas blending:
the result does not depend on the `mix_gas_for_gor` function at all (it is
the same for every `mixGas`), and the composition and mass fractions that
reach both the mass-flux computation and the returned `FluidMixture` are
exactly the dead-oil composition and mass fractions produced by the load
step, unmodified. -/
theorem get_oil_gor_zero_no_blend (E : dbm_utilities.Engine)
    (mixGas : dbm_utilities.MixGasFn) (lr : dbm_utilities.LoadResult)
    (q_oil : ℚ) (fp_type : ℕ) :
    dbm_utilities.get_oil E mixGas (some lr) q_oil 0 [] fp_type =
      Except.ok
        (⟨lr.composition, lr.delta, lr.delta_groups, lr.user_data⟩,
          dbm_utilities.set_mass_fluxes E lr.composition lr.mass_frac
            lr.user_data lr.delta lr.delta_groups q_oil fp_type) := rfl

/-- C4: `print_petroleum_props` returns the raw mass-fraction vector when
no flow rate `q_oil` is supplied; but when `q_oil` IS supplied it does not
return a mass-flux vector — the call to `set_mass_fluxes` on line 1908
passes 5 positional arguments to a 7-parameter function and raises
`TypeError`.  This refutes the claimed behaviour for the supplied-`q_oil`
case. -/
theorem print_petroleum_props_return (E : dbm_utilities.Engine)
    (comp : List String) (mass_frac : List ℚ)
    (data : List (String × dbm_utilities.ChemRecord))
    (delta : Option dbm_utilities.Mat)
    (delta_groups : Option (List (List ℚ))) (T S P : ℚ) :
    (dbm_utilities.print_petroleum_props E comp mass_frac data delta
        delta_groups T S P none = Except.ok mass_frac) ∧
    (∀ q : ℚ, dbm_utilities.print_petroleum_props E comp mass_frac data delta
        delta_groups T S P (some q) =
      Except.error (dbm_utilities.PyErr.typeError
        "set_mass_fluxes() missing 2 required positional arguments")) :=
  ⟨rfl, fun _ => rfl⟩

/-! ## C9: symmetry and zero diagonal of the corrected pedersen matrix -/

namespace dbm_utilities

/-- The invariant preserved by every correction step of `pedersen`:
the matrix is symmetric with an all-zero diagonal. -/
def SymmZeroDiag (d : Mat) : Prop :=
  (∀ i j, d i j = d j i) ∧ (∀ i, d i i = 0)

lemma pedersen_base_symmZeroDiag (M : List ℚ) :
    SymmZeroDiag (pedersen_base M) := by
  constructor
  · intro i j
    unfold pedersen_base
    by_cases h : i = j
    · rw [if_pos h, if_pos h.symm]
    · rw [if_neg h, if_neg (fun hji => h hji.symm), max_comm]
  · intro i
    unfold pedersen_base
    rw [if_pos rfl]

lemma airFix_symmZeroDiag (d : Mat) (idx : ℕ) (c : ℚ)
    (hd : SymmZeroDiag d) : SymmZeroDiag (airFix d idx c) := by
  obtain ⟨hs, hz⟩ := hd
  constructor
  · intro i j
    unfold airFix setEntry setCol setRow
    by_cases hi : i = idx <;> by_cases hj : j = idx <;> simp [hi, hj, hs i j]
  · intro i
    unfold airFix setEntry setCol setRow
    by_cases hi : i = idx <;> simp [hi, hz i]

lemma setSym_symm (d : Mat) (i0 j0 : ℕ) (c : ℚ)
    (hs : ∀ i j, d i j = d j i) : ∀ i j, setSym d i0 j0 c i j = setSym d i0 j0 c j i := by
  intro i j
  unfold setSym setEntry
  by_cases h1 : i = i0 <;> by_cases h2 : i = j0 <;> by_cases h3 : j = i0 <;>
    by_cases h4 : j = j0 <;> simp [h1, h2, h3, h4, hs i j] <;> apply hs

lemma setSym_diag (d : Mat) (i0 j0 : ℕ) (c : ℚ) (hne : i0 ≠ j0)
    (hz : ∀ i, d i i = 0) : ∀ i, setSym d i0 j0 c i i = 0 := by
  intro i
  unfold setSym setEntry
  have h1 : ¬(i = j0 ∧ i = i0) := fun ⟨ha, hb⟩ => hne (hb ▸ ha ▸ rfl)
  have h2 : ¬(i = i0 ∧ i = j0) := fun ⟨ha, hb⟩ => hne (ha ▸ hb ▸ rfl)
  rw [if_neg h1, if_neg h2]
  exact hz i

lemma setSym_symmZeroDiag (d : Mat) (i0 j0 : ℕ) (c : ℚ) (hne : i0 ≠ j0)
    (hd : SymmZeroDiag d) : SymmZeroDiag (setSym d i0 j0 c) :=
  ⟨setSym_symm d i0 j0 c hd.1, setSym_diag d i0 j0 c hne hd.2⟩

lemma zeroRC_symmZeroDiag (d : Mat) (i0 : ℕ) (hd : SymmZeroDiag d) :
    SymmZeroDiag (zeroRC d i0) := by
  obtain ⟨hs, hz⟩ := hd
  constructor
  · intro i j
    unfold zeroRC setCol setRow
    by_cases hi : i = i0 <;> by_cases hj : j = i0 <;> simp [hi, hj, hs i j]
  · intro i
    unfold zeroRC setCol setRow
    by_cases hi : i = i0 <;> simp [hi, hz i]

lemma foldl_symmZeroDiag {α : Type} (f : Mat → α → Mat) (l : List α)
    (hf : ∀ d a, a ∈ l → SymmZeroDiag d → SymmZeroDiag (f d a)) :
    ∀ d : Mat, SymmZeroDiag d → SymmZeroDiag (l.foldl f d) := by
  induction l with
  | nil => intro d hd; exact hd
  | cons x xs ih =>
    intro d hd
    rw [List.foldl_cons]
    exact ih (fun d a ha hd => hf d a (List.mem_cons_of_mem _ ha) hd)
      (f d x) (hf d x (List.mem_cons_self _ _) hd)

lemma indexOf_ne_of_mem {comp : List String} {x y : String}
    (hx : x ∈ comp) (hy : y ∈ comp) (hne : x ≠ y) :
    comp.indexOf x ≠ comp.indexOf y :=
  fun h => hne ((List.indexOf_inj hx hy).1 h)

lemma gasCorrect_symmZeroDiag (comp : List String) (ai : ℕ)
    (gs : List (String × ℚ)) (d : Mat)
    (hgs : ∀ gc ∈ gs, gc.1 ∈ comp → ai ≠ comp.indexOf gc.1)
    (hd : SymmZeroDiag d) : SymmZeroDiag (gasCorrect comp ai d gs) := by
  unfold gasCorrect
  refine foldl_symmZeroDiag _ gs ?_ d hd
  intro d gc hmem hd
  by_cases h : gc.1 ∈ comp
  · rw [if_pos h]
    exact setSym_symmZeroDiag d ai (comp.indexOf gc.1) gc.2 (hgs gc hmem h) hd
  · rw [if_neg h]
    exact hd

lemma airCorrect_symmZeroDiag (comp : List String)
    (entries : List (String × ℚ × List ℚ)) (d : Mat)
    (hair : ∀ a ∈ entries, a.1 ∉ gas)
    (hd : SymmZeroDiag d) : SymmZeroDiag (airCorrect comp d entries) := by
  unfold airCorrect
  refine foldl_symmZeroDiag _ entries ?_ d hd
  intro d a hmem hd
  by_cases h : a.1 ∈ comp
  · rw [if_pos h]
    refine gasCorrect_symmZeroDiag comp (comp.indexOf a.1) _ _ ?_
      (airFix_symmZeroDiag d (comp.indexOf a.1) a.2.1 hd)
    intro gc hgc hgcmem
    have hgas : gc.1 ∈ gas := (List.of_mem_zip hgc).1
    have hne : a.1 ≠ gc.1 := fun he => hair a hmem (he ▸ hgas)
    exact indexOf_ne_of_mem h hgcmem hne
  · rw [if_neg h]
    exact hd

lemma zeroUnknown_symmZeroDiag (comp : List String) (d : Mat)
    (hd : SymmZeroDiag d) : SymmZeroDiag (zeroUnknown comp d) := by
  unfold zeroUnknown
  refine foldl_symmZeroDiag _ _ ?_ d hd
  intro d i _ hd
  by_cases h : knownChem (comp.getD i "")
  · rw [if_pos h]; exact hd
  · rw [if_neg h]; exact zeroRC_symmZeroDiag d i hd

end dbm_utilities

/-- C9: for every molecular-weight list `M` with positive entries and
every composition name list (including ones that trigger the
atmospheric-gas corrections, the air-versus-natural-gas table overrides,
and the zeroing of unrecognized component names), the matrix returned by
`pedersen` is symmetric and has an all-zero diagonal. -/
theorem pedersen_symmetric_zero_diagonal (M : List ℚ) (comp : List String)
    (hpos : ∀ x ∈ M, 0 < x) :
    (∀ i j, dbm_utilities.pedersen M comp i j =
      dbm_utilities.pedersen M comp j i) ∧
    (∀ i, dbm_utilities.pedersen M comp i i = 0) := by
  have hair : ∀ a ∈ dbm_utilities.airEntries, a.1 ∉ dbm_utilities.gas := by
    decide
  unfold dbm_utilities.pedersen
  by_cases h : 0 < comp.length
  · rw [if_pos h]
    exact dbm_utilities.zeroUnknown_symmZeroDiag comp _
      (dbm_utilities.airCorrect_symmZeroDiag comp _ _ hair
        (dbm_utilities.pedersen_base_symmZeroDiag M))
  · rw [if_neg h]
    exact dbm_utilities.pedersen_base_symmZeroDiag M

/-- Witness for C9: the theorem applied to a concrete two-component
mixture containing an atmospheric gas and a natural-gas compound, checked
at entries (0,1), (1,0) and the diagonal. -/
theorem pedersen_symmetric_zero_diagonal_witness :
    (dbm_utilities.pedersen [0.016, 0.028] ["methane", "nitrogen"] 0 1 =
      dbm_utilities.pedersen [0.016, 0.028] ["methane", "nitrogen"] 1 0) ∧
    dbm_utilities.pedersen [0.016, 0.028] ["methane", "nitrogen"] 0 0 = 0 :=
  ⟨(pedersen_symmetric_zero_diagonal [0.016, 0.028] ["methane", "nitrogen"]
      (by intro x hx; fin_cases hx <;> norm_num)).1 0 1,
    (pedersen_symmetric_zero_diagonal [0.016, 0.028] ["methane", "nitrogen"]
      (by intro x hx; fin_cases hx <;> norm_num)).2 0⟩
